import Mathlib

/-!
Verification of the processor-virtualization activation core of barevisor
(`src/hvcore/src/hypervisor/mod.rs`).

The module under study is `virtualize_system` together with its helper
`is_our_hypervisor_present`, the CPUID signature constants, and the
single-initialization static `SHARED_HV_DATA : spin::Once<SharedData>`.

Modelling choices:
* Machine `u32` values are `Nat`; the only operations applied to them in the
  source are equality comparisons and byte assembly, so no wrap-around is
  involved.
* The CPUID instruction is an environment parameter `Nat → CpuidResult`
  (leaf number to result registers), mirroring `cpuid!(leaf)`.
* The `Registers` struct lives in `registers.rs`; `mod.rs` only ever treats a
  captured snapshot as an opaque value handed by reference to
  `switch_stack::jump_with_new_stack`, so it is modelled as an abstract token.
* Control flow of `virtualize_system` and of the closure it fans out to all
  processors is modelled as an explicit event trace in program order;
  `jump_with_new_stack(host::main, &registers)` is recorded as a stack-switch
  event immediately followed by a host-activation event, since the switch
  transfers control into its entry argument on the fresh stack.
* `spin::Once::call_once` is modelled as a pure transition on an
  `Option SharedData` state: it stores the value when empty and otherwise
  leaves the stored value untouched, returning the stored value either way.
-/

namespace Barevisor

/-- Result registers of one CPUID query (`x86::cpuid::CpuidResult`). -/
structure CpuidResult where
  eax : Nat
  ebx : Nat
  ecx : Nat
  edx : Nat
deriving DecidableEq

/-- `const HV_CPUID_VENDOR_AND_MAX_FUNCTIONS: u32 = 0x4000_0000;` -/
def HV_CPUID_VENDOR_AND_MAX_FUNCTIONS : Nat := 0x40000000

/-- `const HV_CPUID_INTERFACE: u32 = 0x4000_0001;` -/
def HV_CPUID_INTERFACE : Nat := 0x40000001

/-- `u32::from_ne_bytes` on x86: little-endian byte assembly. -/
def u32_from_ne_bytes (b0 b1 b2 b3 : Nat) : Nat :=
  b0 + b1 * 256 + b2 * 65536 + b3 * 16777216

/-- `const OUR_HV_VENDOR_NAME_EBX: u32 = u32::from_ne_bytes(*b"Bare");` -/
def OUR_HV_VENDOR_NAME_EBX : Nat :=
  u32_from_ne_bytes ('B').toNat ('a').toNat ('r').toNat ('e').toNat

/-- `const OUR_HV_VENDOR_NAME_ECX: u32 = u32::from_ne_bytes(*b"viso");` -/
def OUR_HV_VENDOR_NAME_ECX : Nat :=
  u32_from_ne_bytes ('v').toNat ('i').toNat ('s').toNat ('o').toNat

/-- `const OUR_HV_VENDOR_NAME_EDX: u32 = u32::from_ne_bytes(*b"r!  ");` -/
def OUR_HV_VENDOR_NAME_EDX : Nat :=
  u32_from_ne_bytes ('r').toNat ('!').toNat (' ').toNat (' ').toNat

/-- `is_our_hypervisor_present`: queries leaf `HV_CPUID_VENDOR_AND_MAX_FUNCTIONS`
and compares `ebx`, `ecx`, `edx` against the three signature constants. -/
def is_our_hypervisor_present (cpuid : Nat → CpuidResult) : Bool :=
  let regs := cpuid HV_CPUID_VENDOR_AND_MAX_FUNCTIONS
  (regs.ebx == OUR_HV_VENDOR_NAME_EBX)
    && (regs.ecx == OUR_HV_VENDOR_NAME_ECX)
    && (regs.edx == OUR_HV_VENDOR_NAME_EDX)

/-- Opaque stand-in for `PagingStructures` (its internals are irrelevant to
`mod.rs`, which only stores it inside `SharedData`). -/
structure PagingStructures where
  raw : Nat
deriving DecidableEq

/-- Opaque stand-in for `GdtTss` (only stored inside `SharedData` here). -/
structure GdtTss where
  raw : Nat
deriving DecidableEq

/-- `pub struct SharedData`, with the same three independently optional
fields; `host_idt` entries are `u64` values modelled as `Nat`. The `:=`
defaults mirror `#[derive(Default)]` (all fields `None`). -/
structure SharedData where
  host_pt : Option PagingStructures := none
  host_idt : Option (List Nat) := none
  host_gdt_and_tss : Option (List GdtTss) := none
deriving DecidableEq

/-- `spin::Once::call_once` on state `st`: stores `v` when uninitialized,
otherwise keeps the previously stored value; returns (reference to) the
stored value together with the new state. -/
def call_once {α : Type} (st : Option α) (v : α) : α × Option α :=
  match st with
  | some w => (w, some w)
  | none => (v, some v)

/-- Folding a whole sequence of `call_once` publish attempts over the
`SHARED_HV_DATA` state, keeping only the state. -/
def publish_sequence (st : Option SharedData) (vs : List SharedData) :
    Option SharedData :=
  vs.foldl (fun s v => (call_once s v).2) st

/-- Opaque token for a captured `Registers` snapshot. -/
structure Registers where
  raw : Nat
deriving DecidableEq

/-- The activation entry operation handed to the stack switch; the source
passes exactly `host::main`. -/
inductive HostEntry where
  | hostMain
deriving DecidableEq

/-- The log lines emitted by `virtualize_system` and its closure. -/
inductive LogMsg where
  | virtualizingAllProcessors
  | virtualizingCurrentProcessor
  | virtualizedCurrentProcessor
  | virtualizedAllProcessors
deriving DecidableEq

/-- Observable events of `virtualize_system`, in program order. -/
inductive Event where
  | loggerInit
  | logInfo (msg : LogMsg)
  | apicInit
  | publish (stored : Bool)
  | fanOutBegin
  | capture (regs : Registers)
  | presenceCheck (result : Bool)
  | stackSwitch (entry : HostEntry) (regs : Registers)
  | hostActivation (entry : HostEntry) (regs : Registers)
  | fanOutEnd
deriving DecidableEq

/-- `true` exactly on stack-switch events. -/
def isStackSwitch : Event → Bool
  | Event.stackSwitch _ _ => true
  | _ => false

/-- `true` exactly on host-activation events. -/
def isHostActivation : Event → Bool
  | Event.hostActivation _ _ => true
  | _ => false

/-- `true` on the per-processor activation-sequence events (snapshot capture,
presence check, stack switch, host activation). -/
def isActivationStep : Event → Bool
  | Event.capture _ => true
  | Event.presenceCheck _ => true
  | Event.stackSwitch _ _ => true
  | Event.hostActivation _ _ => true
  | _ => false

/-- Per-processor environment: the architectural state `capture_current`
snapshots on this processor, and the processor's CPUID responder. -/
structure ProcessorEnv where
  regs : Registers
  cpuid : Nat → CpuidResult

/-- The closure `virtualize_system` fans out to every logical processor:
capture the register snapshot, check presence, and when the hypervisor is
absent, log and jump to `host::main` on a new stack with the snapshot. -/
def per_processor_activation (env : ProcessorEnv) : List Event :=
  let registers := env.regs
  let present := is_our_hypervisor_present env.cpuid
  [Event.capture registers, Event.presenceCheck present]
    ++ (if present then []
        else
          [Event.logInfo LogMsg.virtualizingCurrentProcessor,
           Event.stackSwitch HostEntry.hostMain registers,
           Event.hostActivation HostEntry.hostMain registers])
    ++ [Event.logInfo LogMsg.virtualizedCurrentProcessor]

/-- `virtualize_system`, threaded with the `SHARED_HV_DATA` state and the list
of logical-processor environments the fan-out runs on. Returns the value
returned to the caller (unit), the event trace, and the post-state of
`SHARED_HV_DATA`. The result of `call_once` is discarded (`let _ = ...`). -/
def virtualize_system (st : Option SharedData) (hv_data : SharedData)
    (procs : List ProcessorEnv) : Unit × List Event × Option SharedData :=
  let published := (call_once st hv_data).2
  let tr :=
    [Event.loggerInit, Event.logInfo LogMsg.virtualizingAllProcessors,
     Event.apicInit, Event.publish st.isNone, Event.fanOutBegin]
      ++ (procs.map per_processor_activation).flatten
      ++ [Event.fanOutEnd, Event.logInfo LogMsg.virtualizedAllProcessors]
  ((), tr, published)

/-- A processor on which the hypervisor already answers the signature leaf. -/
def presentCpuid : Nat → CpuidResult :=
  fun _ => ⟨1073741825, OUR_HV_VENDOR_NAME_EBX, OUR_HV_VENDOR_NAME_ECX,
            OUR_HV_VENDOR_NAME_EDX⟩

/-- A processor with no hypervisor: the reserved leaf reads as zeros. -/
def absentCpuid : Nat → CpuidResult :=
  fun _ => ⟨0, 0, 0, 0⟩

/-- Concrete already-virtualized processor environment. -/
def envActive : ProcessorEnv := ⟨⟨3⟩, presentCpuid⟩

/-- Concrete fresh (not yet virtualized) processor environment. -/
def envFresh : ProcessorEnv := ⟨⟨7⟩, absentCpuid⟩

/-- A second fresh processor environment. -/
def envFresh2 : ProcessorEnv := ⟨⟨8⟩, absentCpuid⟩

/-- A configuration whose `host_idt` vector has length 1. -/
def cfgBad : SharedData :=
  { host_pt := none, host_idt := some [0], host_gdt_and_tss := none }

/-- Two-processor system used against `cfgBad` (lengths mismatch). -/
def procsTwo : List ProcessorEnv := [envFresh, envFresh2]

/-- Once the guard holds a value, further publish attempts leave it alone. -/
theorem publish_sequence_of_some (x : SharedData) (vs : List SharedData) :
    publish_sequence (some x) vs = some x := by
  induction vs with
  | nil => rfl
  | cons y ys ih =>
    simpa [publish_sequence, call_once] using ih

/-- C2: `is_our_hypervisor_present` returns `true` iff the three result words
`ebx`, `ecx`, `edx` of the reserved feature-query leaf `0x4000_0000` all equal
the fixed signature words exactly; any mismatch yields `false`. -/
theorem presence_iff_signature (cpuid : Nat → CpuidResult) :
    is_our_hypervisor_present cpuid = true ↔
      ((cpuid 0x40000000).ebx = 0x65726142
        ∧ (cpuid 0x40000000).ecx = 0x6F736976
        ∧ (cpuid 0x40000000).edx = 0x20202172) := by
  simp only [is_our_hypervisor_present, HV_CPUID_VENDOR_AND_MAX_FUNCTIONS,
    OUR_HV_VENDOR_NAME_EBX, OUR_HV_VENDOR_NAME_ECX, OUR_HV_VENDOR_NAME_EDX,
    u32_from_ne_bytes, Bool.and_eq_true, beq_iff_eq]
  have hb : ('B').toNat + ('a').toNat * 256 + ('r').toNat * 65536
      + ('e').toNat * 16777216 = 0x65726142 := by decide
  have hc : ('v').toNat + ('i').toNat * 256 + ('s').toNat * 65536
      + ('o').toNat * 16777216 = 0x6F736976 := by decide
  have hd : ('r').toNat + ('!').toNat * 256 + (' ').toNat * 65536
      + (' ').toNat * 16777216 = 0x20202172 := by decide
  rw [hb, hc, hd, and_assoc]

/-- C2 instantiated on a concrete responder that answers the signature. -/
theorem presence_iff_signature_witness :
    is_our_hypervisor_present presentCpuid = true :=
  (presence_iff_signature presentCpuid).mpr (by decide)

/-- C1: in a run of the per-processor activation sequence in which the
Presence Detector reports `true`, no stack-switch event and no
host-activation event occurs: re-running the sequence on an
already-virtualized processor is a no-op apart from capture, check and
logging. -/
theorem already_active_is_noop (env : ProcessorEnv)
    (h : is_our_hypervisor_present env.cpuid = true) :
    (per_processor_activation env).filter isStackSwitch = []
      ∧ (per_processor_activation env).filter isHostActivation = [] := by
  simp [per_processor_activation, h, isStackSwitch, isHostActivation]

/-- C1 applied to the concrete already-virtualized processor. -/
theorem already_active_is_noop_witness :
    (per_processor_activation envActive).filter isStackSwitch = []
      ∧ (per_processor_activation envActive).filter isHostActivation = [] :=
  already_active_is_noop envActive (by decide)

/-- C6: every run of the per-processor sequence captures the snapshot at
position 0, evaluates the Presence Detector at position 1, and any
stack-switch event sits strictly after both and only in runs where the
detector returned `false`. -/
theorem activation_state_machine_order (env : ProcessorEnv) :
    (per_processor_activation env).get? 0 = some (Event.capture env.regs)
      ∧ (per_processor_activation env).get? 1
          = some (Event.presenceCheck (is_our_hypervisor_present env.cpuid))
      ∧ ∀ i e, (per_processor_activation env).get? i = some e →
          isStackSwitch e = true →
          2 ≤ i ∧ is_our_hypervisor_present env.cpuid = false := by
  cases h : is_our_hypervisor_present env.cpuid with
  | true =>
    have htr : per_processor_activation env
        = [Event.capture env.regs, Event.presenceCheck true,
           Event.logInfo LogMsg.virtualizedCurrentProcessor] := by
      simp [per_processor_activation, h]
    refine ⟨by rw [htr]; rfl, by rw [htr]; rfl, ?_⟩
    intro i e hi hsw
    rw [htr] at hi
    rcases i with _ | _ | _ | n <;>
        simp only [List.get?, Option.some.injEq] at hi
    · subst hi; simp [isStackSwitch] at hsw
    · subst hi; simp [isStackSwitch] at hsw
    · subst hi; simp [isStackSwitch] at hsw
    · exact Option.noConfusion hi
  | false =>
    have htr : per_processor_activation env
        = [Event.capture env.regs, Event.presenceCheck false,
           Event.logInfo LogMsg.virtualizingCurrentProcessor,
           Event.stackSwitch HostEntry.hostMain env.regs,
           Event.hostActivation HostEntry.hostMain env.regs,
           Event.logInfo LogMsg.virtualizedCurrentProcessor] := by
      simp [per_processor_activation, h]
    refine ⟨by rw [htr]; rfl, by rw [htr]; rfl, ?_⟩
    intro i e hi hsw
    rw [htr] at hi
    rcases i with _ | _ | _ | _ | _ | _ | n <;>
        simp only [List.get?, Option.some.injEq] at hi
    · subst hi; simp [isStackSwitch] at hsw
    · subst hi; simp [isStackSwitch] at hsw
    · subst hi; simp [isStackSwitch] at hsw
    · exact ⟨by omega, rfl⟩
    · subst hi; simp [isStackSwitch] at hsw
    · subst hi; simp [isStackSwitch] at hsw
    · exact Option.noConfusion hi

/-- C6 applied to the concrete fresh processor: the stack-switch event found
at position 3 of its run implies position at least 2 and a `false` presence
result. -/
theorem activation_state_machine_order_witness :
    2 ≤ 3 ∧ is_our_hypervisor_present envFresh.cpuid = false :=
  (activation_state_machine_order envFresh).2.2 3
    (Event.stackSwitch HostEntry.hostMain envFresh.regs) (by decide) (by decide)

/-- C7: in a run whose presence check is `false`, the Stack Isolation Switch
fires exactly once, receiving precisely `host::main` together with the
snapshot captured at position 0 of the same run, and that same pair is what
host activation consumes. -/
theorem switch_called_exactly_once (env : ProcessorEnv)
    (h : is_our_hypervisor_present env.cpuid = false) :
    (per_processor_activation env).filter isStackSwitch
        = [Event.stackSwitch HostEntry.hostMain env.regs]
      ∧ (per_processor_activation env).get? 0 = some (Event.capture env.regs)
      ∧ (per_processor_activation env).filter isHostActivation
          = [Event.hostActivation HostEntry.hostMain env.regs] := by
  simp [per_processor_activation, h, isStackSwitch, isHostActivation]

/-- C7 applied to the concrete fresh processor. -/
theorem switch_called_exactly_once_witness :
    (per_processor_activation envFresh).filter isStackSwitch
        = [Event.stackSwitch HostEntry.hostMain envFresh.regs]
      ∧ (per_processor_activation envFresh).get? 0
          = some (Event.capture envFresh.regs)
      ∧ (per_processor_activation envFresh).filter isHostActivation
          = [Event.hostActivation HostEntry.hostMain envFresh.regs] :=
  switch_called_exactly_once envFresh (by decide)

/-- C8: the presence signature is the 12 ASCII bytes of `Bare`, `viso`,
`r!  ` laid out in x86 native (little-endian) order across `ebx`, `ecx`,
`edx`; the feature-query base leaf is `0x4000_0000`, the lowest
hypervisor-reserved leaf, and the interface-version leaf is the adjacent
constant, base leaf + 1. -/
theorem signature_and_leaf_constants :
    HV_CPUID_VENDOR_AND_MAX_FUNCTIONS = 0x40000000
      ∧ HV_CPUID_INTERFACE = HV_CPUID_VENDOR_AND_MAX_FUNCTIONS + 1
      ∧ OUR_HV_VENDOR_NAME_EBX = 0x65726142
      ∧ OUR_HV_VENDOR_NAME_ECX = 0x6F736976
      ∧ OUR_HV_VENDOR_NAME_EDX = 0x20202172
      ∧ OUR_HV_VENDOR_NAME_EBX % 256 = ('B').toNat
      ∧ OUR_HV_VENDOR_NAME_EBX / 256 % 256 = ('a').toNat
      ∧ OUR_HV_VENDOR_NAME_EBX / 65536 % 256 = ('r').toNat
      ∧ OUR_HV_VENDOR_NAME_EBX / 16777216 % 256 = ('e').toNat
      ∧ OUR_HV_VENDOR_NAME_ECX % 256 = ('v').toNat
      ∧ OUR_HV_VENDOR_NAME_ECX / 256 % 256 = ('i').toNat
      ∧ OUR_HV_VENDOR_NAME_ECX / 65536 % 256 = ('s').toNat
      ∧ OUR_HV_VENDOR_NAME_ECX / 16777216 % 256 = ('o').toNat
      ∧ OUR_HV_VENDOR_NAME_EDX % 256 = ('r').toNat
      ∧ OUR_HV_VENDOR_NAME_EDX / 256 % 256 = ('!').toNat
      ∧ OUR_HV_VENDOR_NAME_EDX / 65536 % 256 = (' ').toNat
      ∧ OUR_HV_VENDOR_NAME_EDX / 16777216 % 256 = (' ').toNat := by
  decide

/-- C10: the Presence Detector never looks at `eax`: overriding the `eax`
word of every CPUID response leaves its verdict unchanged. -/
theorem presence_ignores_eax (cpuid : Nat → CpuidResult) (a : Nat) :
    is_our_hypervisor_present (fun leaf => { cpuid leaf with eax := a })
      = is_our_hypervisor_present cpuid := by
  simp [is_our_hypervisor_present]

/-- C4: the `SHARED_HV_DATA` guard has first-publisher-wins semantics: over
any sequence of publish attempts the first attempt's configuration is the one
retained, and once a value is stored, a further `call_once` neither changes
the stored value nor returns anything but it (later publishes are no-ops and
the stored configuration is never mutated). -/
theorem shared_data_first_publisher_wins (v u w : SharedData)
    (vs : List SharedData) :
    publish_sequence none (v :: vs) = some v
      ∧ call_once (some w) u = (w, some w) := by
  constructor
  · have h0 : publish_sequence none (v :: vs) = publish_sequence (some v) vs := by
      simp [publish_sequence, call_once]
    rw [h0, publish_sequence_of_some]
  · rfl

/-- C5: in every execution of `virtualize_system`, the topology-mapping
initialization sits at trace position 2 and the configuration publish at
position 3, the fan-out is invoked at position 4, and every per-processor
activation event (capture, presence check, stack switch, host activation)
occurs strictly after the fan-out invocation, hence after the publish. -/
theorem publish_before_fanout (st : Option SharedData) (hv : SharedData)
    (procs : List ProcessorEnv) :
    ((virtualize_system st hv procs).2.1.get? 2 = some Event.apicInit)
      ∧ ((virtualize_system st hv procs).2.1.get? 3
          = some (Event.publish st.isNone))
      ∧ ((virtualize_system st hv procs).2.1.get? 4 = some Event.fanOutBegin)
      ∧ ∀ j e, (virtualize_system st hv procs).2.1.get? j = some e →
          isActivationStep e = true → 4 < j := by
  refine ⟨rfl, rfl, rfl, ?_⟩
  intro j e hj ha
  by_contra hlt
  push_neg at hlt
  interval_cases j <;>
    · simp only [virtualize_system, List.cons_append, List.nil_append,
        List.get?, Option.some.injEq] at hj
      subst hj
      simp [isActivationStep] at ha

/-- C5 applied concretely: the capture event of the first fresh processor
sits at position 5, strictly after the publish and the fan-out invocation. -/
theorem publish_before_fanout_witness : 4 < 5 :=
  (publish_before_fanout none cfgBad procsTwo).2.2.2 5
    (Event.capture envFresh.regs) (by decide) (by decide)

/-- C9: `virtualize_system` returns unit unconditionally: its caller-visible
result on a fresh guard (where the passed configuration is published) is
identical to its result on an already-occupied guard (where the passed
configuration is silently discarded and the earlier one retained), even
though the two runs publish differently; the `call_once` outcome is never
surfaced. -/
theorem no_failure_channel (hv w : SharedData) (procs : List ProcessorEnv) :
    (virtualize_system none hv procs).1 = (virtualize_system (some w) hv procs).1
      ∧ (virtualize_system none hv procs).2.2 = some hv
      ∧ (virtualize_system (some w) hv procs).2.2 = some w
      ∧ (virtualize_system none hv procs).2.1.get? 3
          = some (Event.publish true)
      ∧ (virtualize_system (some w) hv procs).2.1.get? 3
          = some (Event.publish false) :=
  ⟨rfl, rfl, rfl, rfl, rfl⟩

/-- C3 fails on the code: with a two-processor system and a configuration
whose `host_idt` vector has length 1 (a shape violation), `virtualize_system`
neither detects the mismatch nor fails before fan-out — the fan-out is
invoked, both processors run the activation sequence (their capture events
appear in the trace), and the ill-shaped configuration is published as-is. -/
theorem no_shape_check_counterexample :
    (cfgBad.host_idt.map List.length = some 1 ∧ procsTwo.length = 2)
      ∧ Event.fanOutBegin ∈ (virtualize_system none cfgBad procsTwo).2.1
      ∧ Event.capture envFresh.regs ∈ (virtualize_system none cfgBad procsTwo).2.1
      ∧ Event.capture envFresh2.regs ∈ (virtualize_system none cfgBad procsTwo).2.1
      ∧ (virtualize_system none cfgBad procsTwo).2.2 = some cfgBad := by
  decide

/-- C3 amended: `virtualize_system` performs no configuration-shape
validation at all — for every configuration, well-shaped or not, it publishes
the configuration unchanged, invokes the fan-out, and every processor in the
system runs the activation sequence. -/
theorem no_shape_check (hv : SharedData) (procs : List ProcessorEnv)
    (env : ProcessorEnv) (henv : env ∈ procs) :
    Event.fanOutBegin ∈ (virtualize_system none hv procs).2.1
      ∧ Event.capture env.regs ∈ (virtualize_system none hv procs).2.1
      ∧ (virtualize_system none hv procs).2.2 = some hv := by
  refine ⟨?_, ?_, rfl⟩
  · simp [virtualize_system]
  · simp only [virtualize_system, List.mem_append, List.mem_cons]
    refine Or.inl (Or.inr ?_)
    rw [List.mem_flatten]
    exact ⟨per_processor_activation env, List.mem_map_of_mem _ henv,
      by simp [per_processor_activation]⟩

/-- C3 amended claim applied concretely to the mismatched configuration. -/
theorem no_shape_check_witness :
    Event.fanOutBegin ∈ (virtualize_system none cfgBad procsTwo).2.1
      ∧ Event.capture envFresh.regs ∈ (virtualize_system none cfgBad procsTwo).2.1
      ∧ (virtualize_system none cfgBad procsTwo).2.2 = some cfgBad :=
  no_shape_check cfgBad procsTwo envFresh
    (by unfold procsTwo; exact List.mem_cons_self _ _)

end Barevisor
